import Mathlib

/-!
Verification of the bet-tracker reconciliation core.

This file gives a shallow embedding of the repository's core logic and
proves/refutes the specification's claims about it:

* `backend/data_converters.py` — odds conversion, status/bet-type
  normalization, currency rounding, sportsbook authority sets and the
  source-to-canonical mappers;
* `backend/sportsbook_config.py` — the configurable authority and alias
  tables together with their validation;
* `backend/import_unified.py` — the batch reconciliation engine
  (`import_oddsjam_to_unified`, `import_pikkit_to_unified`): per-row
  authority filtering, matching-key lookup and insert-or-update;
* `backend/routes/unified_bets.py` — the mark-verified endpoint;
* `backend/routes/bets.py` — implied probability, EV% and beat-CLV.

Modelling conventions:

* Python `float` arithmetic is embedded as exact rational arithmetic `ℚ`;
  `int(x)` is truncation toward zero (`truncToInt`).  Every concrete input
  used in a theorem below has been checked to give the same result under
  IEEE-754 doubles as under exact rationals.
* A Python exception escaping a function is embedded as an `Option`
  result of `none` (the import loop catches exceptions per row and counts
  them as errors, which the embedding mirrors).
* Datetimes are embedded as minute-precision integer timestamps
  (`Option ℤ`, `none` = SQL NULL): the import logic only ever compares
  them for equality/NULL-ness and via `TIMESTAMPDIFF(MINUTE, ·, ·)`,
  which becomes integer subtraction at minute granularity.  The string
  parsing in `parse_oddsjam_date`/`parse_pikkit_date` is outside the
  claims and is not modelled.
* The SQL table `unified_bets` is embedded as a list of records plus an
  auto-increment counter; `SELECT ... LIMIT 1` is `List.find?`,
  `UPDATE ... WHERE id = :x` maps over the list.
* Python `str.upper`/`str.strip` are re-implemented on the character
  list so that the kernel can evaluate them (`pyUpper`, `pyStrip`).
-/

/-- Embedding of Python `str.upper()` (ASCII case mapping), defined on the
character list so that concrete instances reduce in the kernel. -/
def pyUpper (s : String) : String := String.mk (s.data.map Char.toUpper)

/-- Embedding of Python `str.lower()`. -/
def pyLower (s : String) : String := String.mk (s.data.map Char.toLower)

/-- Whitespace test used by Python `str.strip()`. -/
def pyIsSpace (c : Char) : Bool :=
  (c == ' ') || (c == '\t') || (c == '\n') || (c == '\r') || (c == '\x0b') || (c == '\x0c')

/-- Embedding of Python `str.strip()`: drop whitespace from both ends. -/
def pyStrip (s : String) : String :=
  String.mk (((s.data.dropWhile pyIsSpace).reverse.dropWhile pyIsSpace).reverse)

/-- Embedding of Python `int(x)` on a real value: truncation toward zero. -/
def truncToInt (q : ℚ) : ℤ := if 0 ≤ q then ⌊q⌋ else -⌊-q⌋

namespace DataConverters

/-- `PIKKIT_SPORTSBOOKS` from `backend/data_converters.py`: sportsbooks whose
data comes from the Pikkit feed (set literal, embedded as a list). -/
def PIKKIT_SPORTSBOOKS : List String :=
  ["BetMGM", "Caesars Sportsbook", "Caesars", "Draftkings Sportsbook", "DraftKings",
   "ESPN BET", "ESPNBet", "Fanatics", "Fanduel Sportsbook", "FanDuel",
   "Fliff", "Novig", "Onyx", "Onyx Odds", "PrizePicks", "ProphetX",
   "Prophet X", "Rebet", "Thrillzz", "Underdog Fantasy"]

/-- `ODDSJAM_SPORTSBOOKS` from `backend/data_converters.py`. -/
def ODDSJAM_SPORTSBOOKS : List String :=
  ["BetNow", "BetOnline", "BetUS", "BookMaker", "Bovada",
   "Everygame", "MyBookie", "Sportzino", "Xbet", "bet105", "betwhale"]

/-- `should_use_pikkit_data(sportsbook)`: membership in `PIKKIT_SPORTSBOOKS`. -/
def should_use_pikkit_data (sportsbook : String) : Bool :=
  PIKKIT_SPORTSBOOKS.contains sportsbook

/-- `decimal_to_american_odds(decimal_odds)`.  Input `none` models Python
`None`.  Result `none` models the `ZeroDivisionError` raised when
`decimal_odds == 1` (then `decimal_odds - 1 == 0` and `-100 / 0` raises);
otherwise the function returns `int(...)` of the converted value. -/
def decimal_to_american_odds (decimal_odds : Option ℚ) : Option ℤ :=
  match decimal_odds with
  | none => some 0
  | some d =>
    if d ≤ 0 then some 0
    else if 2 ≤ d then some (truncToInt ((d - 1) * 100))
    else if d = 1 then none
    else some (truncToInt (-100 / (d - 1)))

/-- `round_currency(amount)`: `None` passes through; otherwise quantize to
2 decimal places with `ROUND_HALF_UP` (half away from zero). -/
def round_currency (amount : Option ℚ) : Option ℚ :=
  match amount with
  | none => none
  | some q =>
    some ((if 0 ≤ q then (⌊q * 100 + 1/2⌋ : ℤ) else -⌊-(q * 100) + 1/2⌋) / 100 : ℚ)

/-- `normalize_bet_type(bet_type, source)`. -/
def normalize_bet_type (bet_type : Option String) (source : String) : String :=
  match bet_type with
  | none => "straight"
  | some bt =>
    if bt = "" then "straight"
    else
      let b := pyLower bt
      if source = "oddsjam" then (if b = "parlay" then "parlay" else "straight")
      else if source = "pikkit" then (if b = "parlay" then "parlay" else "straight")
      else "straight"

/-- `normalize_status(status, source)`: per-source case-insensitive lookup
table defaulting to `"pending"`. -/
def normalize_status (status : Option String) (source : String) : String :=
  match status with
  | none => "pending"
  | some st =>
    if st = "" then "pending"
    else
      let u := pyUpper st
      if source = "oddsjam" then
        if u = "PENDING" then "pending"
        else if u = "WON" then "won"
        else if u = "LOST" then "lost"
        else if u = "REFUNDED" then "refunded"
        else "pending"
      else if source = "pikkit" then
        if u = "PLACED" then "pending"
        else if u = "SETTLED_WIN" then "won"
        else if u = "SETTLED_LOSS" then "lost"
        else if u = "SETTLED_PUSH" then "refunded"
        else if u = "SETTLED_VOID" then "refunded"
        else "pending"
      else "pending"

/-- `create_bet_info_from_oddsjam(bet_name, market_name, event_name)`:
space-join the non-empty stripped parts. -/
def create_bet_info_from_oddsjam (bet_name market_name event_name : String) : String :=
  String.intercalate " "
    (([bet_name, market_name, event_name].map pyStrip).filter (fun p => p ≠ ""))

/-- One row of the OddsJam export after the CSV `fillna` normalization in
`import_oddsjam_to_unified` (numeric columns default to 0, text columns to
`""`).  Date strings are pre-parsed to minute timestamps (see header). -/
structure OddsjamRow where
  sportsbook : String
  sport : String
  league : String
  event_name : String
  bet_name : String
  market_name : String
  odds : ℤ
  clv : ℤ
  stake : ℚ
  bet_profit : ℚ
  status : String
  bet_type : String
  created_at : Option ℤ
  event_start_date : Option ℤ
  tags : String
  deriving DecidableEq

/-- One row of the Pikkit export after the CSV `fillna` normalization in
`import_pikkit_to_unified`. -/
structure PikkitRow where
  bet_id : String
  sportsbook : String
  type : String
  status : String
  odds : ℚ
  closing_line : ℚ
  ev : ℚ
  amount : ℚ
  profit : ℚ
  time_placed : Option ℤ
  time_settled : Option ℤ
  bet_info : String
  tags : String
  sports : String
  leagues : String
  deriving DecidableEq

/-- The dictionary produced by the converters and consumed by the unified
INSERT/UPDATE statements. -/
structure UnifiedData where
  source : String
  original_bet_id : String
  sportsbook : String
  bet_type : String
  status : String
  odds : ℤ
  clv : ℤ
  stake : Option ℚ
  bet_profit : Option ℚ
  time_placed : Option ℤ
  time_settled : Option ℤ
  bet_info : String
  tags : String
  sport : String
  league : String
  deriving DecidableEq

/-- `convert_oddsjam_to_unified(oddsjam_data)`; `idx` is the dataframe index
that the import loop stores into `id` (hence `original_bet_id`). -/
def convert_oddsjam_to_unified (idx : ℕ) (o : OddsjamRow) : UnifiedData :=
  { source := "oddsjam"
    original_bet_id := toString idx
    sportsbook := o.sportsbook
    bet_type := normalize_bet_type (some o.bet_type) "oddsjam"
    status := normalize_status (some o.status) "oddsjam"
    odds := o.odds
    clv := o.clv
    stake := round_currency (some o.stake)
    bet_profit := round_currency (some o.bet_profit)
    time_placed := o.created_at
    time_settled := o.event_start_date
    bet_info := create_bet_info_from_oddsjam o.bet_name o.market_name o.event_name
    tags := o.tags
    sport := o.sport
    league := o.league }

/-- `convert_pikkit_to_unified(pikkit_data)`.  The two
`decimal_to_american_odds` calls may raise (input exactly 1); the exception
propagates out of the converter, so the result is an `Option`. -/
def convert_pikkit_to_unified (p : PikkitRow) : Option UnifiedData :=
  match decimal_to_american_odds (some p.odds), decimal_to_american_odds (some p.closing_line) with
  | some od, some cl =>
    some
      { source := "pikkit"
        original_bet_id := p.bet_id
        sportsbook := p.sportsbook
        bet_type := normalize_bet_type (some p.type) "pikkit"
        status := normalize_status (some p.status) "pikkit"
        odds := od
        clv := cl
        stake := round_currency (some p.amount)
        bet_profit := round_currency (some p.profit)
        time_placed := p.time_placed
        time_settled := p.time_settled
        bet_info := p.bet_info
        tags := p.tags
        sport := p.sports
        league := p.leagues }
  | _, _ => none

end DataConverters

namespace SportsbookConfig

/-- `PIKKIT_SPORTSBOOKS` from `backend/sportsbook_config.py`. -/
def PIKKIT_SPORTSBOOKS : List String :=
  ["BetMGM", "Caesars Sportsbook", "Caesars", "Draftkings Sportsbook", "DraftKings",
   "ESPN BET", "ESPNBet", "Fanatics", "Fanduel Sportsbook", "FanDuel",
   "Fliff", "PrizePicks", "Underdog Fantasy",
   "Novig", "Onyx", "Onyx Odds", "ProphetX", "Prophet X", "Rebet", "Thrillzz"]

/-- `ODDSJAM_SPORTSBOOKS` from `backend/sportsbook_config.py`. -/
def ODDSJAM_SPORTSBOOKS : List String :=
  ["BetNow", "BetOnline", "BetUS", "BookMaker", "Bovada",
   "Everygame", "MyBookie", "Sportzino", "Xbet", "bet105", "betwhale"]

/-- `SPORTSBOOK_ALIASES`: spelling variants between the two systems. -/
def SPORTSBOOK_ALIASES : List (String × String) :=
  [("Prophet X", "ProphetX"), ("ProphetX", "Prophet X"),
   ("Draftkings Sportsbook", "DraftKings"), ("DraftKings", "Draftkings Sportsbook"),
   ("Fanduel Sportsbook", "FanDuel"), ("FanDuel", "Fanduel Sportsbook"),
   ("ESPN BET", "ESPNBet"), ("ESPNBet", "ESPN BET"),
   ("Onyx Odds", "Onyx"), ("Onyx", "Onyx Odds"),
   ("Caesars Sportsbook", "Caesars"), ("Caesars", "Caesars Sportsbook")]

/-- `get_normalized_sportsbook_name(sportsbook_name)`. -/
def get_normalized_sportsbook_name (sportsbook_name : String) : String :=
  if sportsbook_name = "" then ""
  else
    let normalized := pyStrip sportsbook_name
    match SPORTSBOOK_ALIASES.lookup normalized with
    | some canonical => canonical
    | none => normalized

/-- `determine_data_source(sportsbook_name)`. -/
def determine_data_source (sportsbook_name : String) : String :=
  if sportsbook_name = "" then "oddsjam"
  else
    let normalized_name := get_normalized_sportsbook_name sportsbook_name
    if PIKKIT_SPORTSBOOKS.contains sportsbook_name
        || PIKKIT_SPORTSBOOKS.contains normalized_name then "pikkit"
    else if ODDSJAM_SPORTSBOOKS.contains sportsbook_name
        || ODDSJAM_SPORTSBOOKS.contains normalized_name then "oddsjam"
    else "oddsjam"

/-- The `overlaps` component of `validate_configuration()`: sportsbooks in
both the Pikkit and the OddsJam authority sets. -/
def validate_configuration_overlaps : List String :=
  PIKKIT_SPORTSBOOKS.filter (fun s => ODDSJAM_SPORTSBOOKS.contains s)

/-- The `alias_conflicts` component of `validate_configuration()`: alias
pairs mapping a name of one authority set to a name of the other. -/
def validate_configuration_alias_conflicts : List (String × String) :=
  SPORTSBOOK_ALIASES.filter (fun ac =>
    (PIKKIT_SPORTSBOOKS.contains ac.1 && ODDSJAM_SPORTSBOOKS.contains ac.2)
    || (ODDSJAM_SPORTSBOOKS.contains ac.1 && PIKKIT_SPORTSBOOKS.contains ac.2))

end SportsbookConfig

namespace ImportUnified

open DataConverters

/-- One row of the `unified_bets` table. -/
structure UnifiedRecord where
  id : ℕ
  source : String
  original_bet_id : String
  sportsbook : String
  bet_type : String
  status : String
  odds : ℤ
  clv : ℤ
  stake : Option ℚ
  bet_profit : Option ℚ
  time_placed : Option ℤ
  time_settled : Option ℤ
  bet_info : String
  tags : String
  sport : String
  league : String
  verified : Bool
  deriving DecidableEq

/-- The `unified_bets` table: rows plus the auto-increment counter. -/
structure Store where
  recs : List UnifiedRecord
  nextId : ℕ
  deriving DecidableEq

def emptyStore : Store := ⟨[], 0⟩

/-- Per-row outcome, for the batch report counters. -/
inductive Outcome where
  | inserted
  | updated
  | skipped
  | errored
  deriving DecidableEq

/-- The batch report: `new_count/updated_count/skipped_count/error_count`. -/
structure Report where
  new_count : ℕ
  updated_count : ℕ
  skipped_count : ℕ
  error_count : ℕ
  deriving DecidableEq

def Report.add (o : Outcome) (r : Report) : Report :=
  match o with
  | .inserted => { r with new_count := r.new_count + 1 }
  | .updated => { r with updated_count := r.updated_count + 1 }
  | .skipped => { r with skipped_count := r.skipped_count + 1 }
  | .errored => { r with error_count := r.error_count + 1 }

/-- The `time_placed` comparison in the OddsJam matching query: both NULL,
or both non-NULL with `ABS(TIMESTAMPDIFF(MINUTE, ·, ·)) <= 1`. -/
def timeMatchB : Option ℤ → Option ℤ → Bool
  | none, none => true
  | some a, some b => (a - b).natAbs ≤ 1
  | _, _ => false

/-- The WHERE clause of the OddsJam matching query. -/
def oddsjamKeyPred (binfo : String) (tp : Option ℤ) (r : UnifiedRecord) : Bool :=
  r.source == "oddsjam" && r.bet_info == binfo && timeMatchB r.time_placed tp

/-- The OddsJam matching query (`SELECT id FROM unified_bets WHERE source =
'oddsjam' AND bet_info = :bet_info AND <time comparison> LIMIT 1`). -/
def findOddsjam (s : Store) (binfo : String) (tp : Option ℤ) : Option UnifiedRecord :=
  s.recs.find? (oddsjamKeyPred binfo tp)

/-- The WHERE clause of the Pikkit matching query. -/
def pikkitKeyPred (bid : String) (r : UnifiedRecord) : Bool :=
  r.source == "pikkit" && r.original_bet_id == bid

/-- The Pikkit matching query (`SELECT id FROM unified_bets WHERE source =
'pikkit' AND original_bet_id = :bet_id LIMIT 1`). -/
def findPikkit (s : Store) (bid : String) : Option UnifiedRecord :=
  s.recs.find? (pikkitKeyPred bid)

/-- The unified INSERT: all fields come from the converter output except
`verified`, which is the SQL literal (`FALSE` for OddsJam, `TRUE` for
Pikkit). -/
def mkRecord (id : ℕ) (u : UnifiedData) (verified : Bool) : UnifiedRecord :=
  { id := id
    source := u.source
    original_bet_id := u.original_bet_id
    sportsbook := u.sportsbook
    bet_type := u.bet_type
    status := u.status
    odds := u.odds
    clv := u.clv
    stake := u.stake
    bet_profit := u.bet_profit
    time_placed := u.time_placed
    time_settled := u.time_settled
    bet_info := u.bet_info
    tags := u.tags
    sport := u.sport
    league := u.league
    verified := verified }

def insertRecord (s : Store) (u : UnifiedData) (verified : Bool) : Store :=
  { recs := s.recs ++ [mkRecord s.nextId u verified], nextId := s.nextId + 1 }

/-- `UPDATE unified_bets SET ... WHERE id = :bet_id`. -/
def updateById (s : Store) (i : ℕ) (f : UnifiedRecord → UnifiedRecord) : Store :=
  { s with recs := s.recs.map (fun r => if r.id = i then f r else r) }

/-- The OddsJam UPDATE statement: sets every field except `time_placed`,
`bet_info`, `source` (the matching key) — and never touches `verified`. -/
def oddsjamUpdate (u : UnifiedData) (r : UnifiedRecord) : UnifiedRecord :=
  { r with
    original_bet_id := u.original_bet_id
    sportsbook := u.sportsbook
    bet_type := u.bet_type
    status := u.status
    odds := u.odds
    clv := u.clv
    stake := u.stake
    bet_profit := u.bet_profit
    time_settled := u.time_settled
    tags := u.tags
    sport := u.sport
    league := u.league }

/-- The Pikkit UPDATE statement: sets every field except `original_bet_id`
and `source` (the matching key) — and never touches `verified`. -/
def pikkitUpdate (u : UnifiedData) (r : UnifiedRecord) : UnifiedRecord :=
  { r with
    sportsbook := u.sportsbook
    bet_type := u.bet_type
    status := u.status
    odds := u.odds
    clv := u.clv
    stake := u.stake
    bet_profit := u.bet_profit
    time_placed := u.time_placed
    time_settled := u.time_settled
    bet_info := u.bet_info
    tags := u.tags
    sport := u.sport
    league := u.league }

/-- One iteration of the OddsJam import loop: authority filter, convert,
match, insert-or-update. -/
def processOddsjamRow (s : Store) (idx : ℕ) (row : OddsjamRow) : Store × Outcome :=
  if should_use_pikkit_data row.sportsbook then (s, .skipped)
  else
    match findOddsjam s (convert_oddsjam_to_unified idx row).bet_info
        (convert_oddsjam_to_unified idx row).time_placed with
    | none => (insertRecord s (convert_oddsjam_to_unified idx row) false, .inserted)
    | some r =>
      (updateById s r.id (oddsjamUpdate (convert_oddsjam_to_unified idx row)), .updated)

/-- The OddsJam import loop from dataframe index `idx` on. -/
def importOddsjamFrom (s : Store) (idx : ℕ) : List OddsjamRow → Store × Report
  | [] => (s, ⟨0, 0, 0, 0⟩)
  | row :: rest =>
    let so := processOddsjamRow s idx row
    let sr := importOddsjamFrom so.1 (idx + 1) rest
    (sr.1, sr.2.add so.2)

/-- `import_oddsjam_to_unified`: run the loop over the whole export. -/
def import_oddsjam_to_unified (rows : List OddsjamRow) (s : Store) : Store × Report :=
  importOddsjamFrom s 0 rows

/-- One iteration of the Pikkit import loop: empty `bet_id` is counted as an
error; a converter exception is caught and counted as an error; otherwise
match on `(source, original_bet_id)` and insert-or-update. -/
def processPikkitRow (s : Store) (row : PikkitRow) : Store × Outcome :=
  if row.bet_id = "" then (s, .errored)
  else
    match convert_pikkit_to_unified row with
    | none => (s, .errored)
    | some u =>
      match findPikkit s row.bet_id with
      | none => (insertRecord s u true, .inserted)
      | some r => (updateById s r.id (pikkitUpdate u), .updated)

/-- The Pikkit import loop. -/
def importPikkitFrom (s : Store) : List PikkitRow → Store × Report
  | [] => (s, ⟨0, 0, 0, 0⟩)
  | row :: rest =>
    let so := processPikkitRow s row
    let sr := importPikkitFrom so.1 rest
    (sr.1, sr.2.add so.2)

/-- `import_pikkit_to_unified`: run the loop over the whole export. -/
def import_pikkit_to_unified (rows : List PikkitRow) (s : Store) : Store × Report :=
  importPikkitFrom s rows

end ImportUnified

namespace Routes

open ImportUnified

/-- Result of the `verify_bet` endpoint of `backend/routes/unified_bets.py`
(the HTTP status/JSON shape collapsed to the four relevant outcomes). -/
inductive VerifyResult where
  /-- 404: no record with the given id. -/
  | notFound
  /-- 400: record exists but its source is not `oddsjam` — explicit
  rejection ("Only OddsJam bets can be manually verified"). -/
  | rejectedNotOddsjam
  /-- 200 with message "Bet is already verified": no update executed. -/
  | alreadyVerified
  /-- 200 with message "Bet successfully verified": `verified` set. -/
  | verifiedNow
  deriving DecidableEq

/-- `verify_bet(bet_id)`: fetch the record, reject non-OddsJam sources,
no-op on already-verified records, otherwise set `verified = TRUE`. -/
def verify_bet (s : Store) (bet_id : ℕ) : VerifyResult × Store :=
  match s.recs.find? (fun r => r.id == bet_id) with
  | none => (.notFound, s)
  | some r =>
    if r.source ≠ "oddsjam" then (.rejectedNotOddsjam, s)
    else if r.verified then (.alreadyVerified, s)
    else (.verifiedNow, updateById s bet_id (fun x => { x with verified := true }))

/-- `american_odds_to_implied_prob(odds)` from `backend/routes/bets.py`. -/
def american_odds_to_implied_prob (odds : ℤ) : ℚ :=
  if odds > 0 then 100 / ((odds : ℚ) + 100)
  else (|odds| : ℤ) / (((|odds| : ℤ) : ℚ) + 100)

/-- `calculate_ev_percent(implied_prob, clv_implied_prob)`. -/
def calculate_ev_percent (implied_prob clv_implied_prob : ℚ) : ℚ :=
  if implied_prob = 0 then 0 else clv_implied_prob / implied_prob - 1

/-- The per-bet CLV computation of `get_ev_analysis`: with a valid CLV
(non-NULL, nonzero) and nonzero implied probabilities it produces
`(ev_percent, beat_clv)`; otherwise the CLV fields stay at their `None`
defaults. -/
def evMetrics (odds : ℤ) (clv : Option ℤ) : Option (ℚ × Bool) :=
  match clv with
  | none => none
  | some c =>
    if c = 0 then none
    else
      let implied_prob := american_odds_to_implied_prob odds
      let clv_implied_prob := american_odds_to_implied_prob c
      if implied_prob ≠ 0 ∧ clv_implied_prob ≠ 0 then
        some (calculate_ev_percent implied_prob clv_implied_prob, odds > c)
      else none

end Routes

open DataConverters ImportUnified Routes

/-! ## Concrete instances used by the claim theorems -/

/-- The OddsJam matching key of a raw row: the composed `bet_info`.  It does
not depend on the dataframe index. -/
def oddsjamRowKey (row : OddsjamRow) : String :=
  create_bet_info_from_oddsjam row.bet_name row.market_name row.event_name

/-- The spec's concrete source-B row (absent fields at their CSV-fill
defaults). -/
def c5row : PikkitRow :=
  { bet_id := "abc123", sportsbook := "FanDuel", type := "", status := "SETTLED_WIN",
    odds := 191/100, closing_line := 9/5, ev := 0, amount := 10, profit := 91/10,
    time_placed := none, time_settled := none,
    bet_info := "", tags := "", sports := "", leagues := "" }

/-- C1 counterexample row: a Pikkit export row whose sportsbook (Bovada) is
authoritative to OddsJam. -/
def c1row : PikkitRow :=
  { bet_id := "b1", sportsbook := "Bovada", type := "straight", status := "SETTLED_WIN",
    odds := 3, closing_line := 3, ev := 0, amount := 10, profit := 20,
    time_placed := some 100, time_settled := some 200,
    bet_info := "X wins", tags := "", sports := "Basketball", leagues := "NBA" }

/-- C1 witness row: an OddsJam export row whose sportsbook (FanDuel) is
authoritative to Pikkit, hence skipped by the OddsJam import. -/
def c1skiprow : OddsjamRow :=
  { sportsbook := "FanDuel", sport := "", league := "", event_name := "",
    bet_name := "", market_name := "", odds := 0, clv := 0, stake := 0,
    bet_profit := 0, status := "", bet_type := "", created_at := none,
    event_start_date := none, tags := "" }

/-- C2 counterexample row: one well-formed Pikkit row, imported twice. -/
def c2row : PikkitRow :=
  { bet_id := "dup1", sportsbook := "FanDuel", type := "", status := "SETTLED_WIN",
    odds := 3, closing_line := 0, ev := 0, amount := 5, profit := 10,
    time_placed := none, time_settled := none,
    bet_info := "Y", tags := "", sports := "", leagues := "" }

/-- C3: an existing canonical Pikkit record with terminal status `won`. -/
def c3rec : UnifiedRecord :=
  { id := 0, source := "pikkit", original_bet_id := "b1", sportsbook := "FanDuel",
    bet_type := "straight", status := "won", odds := 200, clv := 0, stake := none,
    bet_profit := none, time_placed := none, time_settled := none, bet_info := "Y",
    tags := "", sport := "", league := "", verified := true }

/-- C3: a store holding just that terminal record. -/
def c3store : Store := { recs := [c3rec], nextId := 1 }

/-- C3: an incoming Pikkit row for the same bet id, now reported `PLACED`
(pending). -/
def c3row : PikkitRow :=
  { bet_id := "b1", sportsbook := "FanDuel", type := "", status := "PLACED",
    odds := 3, closing_line := 0, ev := 0, amount := 0, profit := 0,
    time_placed := none, time_settled := none,
    bet_info := "Y", tags := "", sports := "", leagues := "" }

/-- C3: the converter output for `c3row`. -/
def c3unified : UnifiedData :=
  { source := "pikkit", original_bet_id := "b1", sportsbook := "FanDuel",
    bet_type := "straight", status := "pending", odds := 200, clv := 0,
    stake := some 0, bet_profit := some 0, time_placed := none, time_settled := none,
    bet_info := "Y", tags := "", sport := "", league := "" }

/-- C4: an existing canonical Pikkit record whose stake (3) was initially
wrong. -/
def c4rec : UnifiedRecord :=
  { id := 0, source := "pikkit", original_bet_id := "pk9", sportsbook := "FanDuel",
    bet_type := "straight", status := "won", odds := 200, clv := 0, stake := some 3,
    bet_profit := some 0, time_placed := none, time_settled := none, bet_info := "",
    tags := "", sport := "", league := "", verified := true }

/-- C4: a store holding just that record. -/
def c4store : Store := { recs := [c4rec], nextId := 1 }

/-- C4: the corrected export row for the same bet id with stake 4. -/
def c4row : PikkitRow :=
  { bet_id := "pk9", sportsbook := "FanDuel", type := "", status := "SETTLED_WIN",
    odds := 3, closing_line := 0, ev := 0, amount := 4, profit := 0,
    time_placed := none, time_settled := none,
    bet_info := "", tags := "", sports := "", leagues := "" }

/-- C4: the converter output for `c4row`. -/
def c4unified : UnifiedData :=
  { source := "pikkit", original_bet_id := "pk9", sportsbook := "FanDuel",
    bet_type := "straight", status := "won", odds := 200, clv := 0,
    stake := some 4, bet_profit := some 0, time_placed := none, time_settled := none,
    bet_info := "", tags := "", sport := "", league := "" }

/-- The authority invariant of the OddsJam import: no canonical OddsJam
record belongs to a Pikkit-authoritative sportsbook. -/
def OddsjamAuthorityOK (s : Store) : Prop :=
  ∀ r ∈ s.recs, r.source = "oddsjam" → r.sportsbook ∉ DataConverters.PIKKIT_SPORTSBOOKS

/-- Concrete store for the C8 witness: one auto-verified Pikkit record and
one unverified OddsJam record. -/
def c8store : Store :=
  { recs :=
      [{ id := 0, source := "pikkit", original_bet_id := "pk1", sportsbook := "FanDuel",
         bet_type := "straight", status := "won", odds := 100, clv := 0,
         stake := none, bet_profit := none, time_placed := none, time_settled := none,
         bet_info := "", tags := "", sport := "", league := "", verified := true },
       { id := 1, source := "oddsjam", original_bet_id := "0", sportsbook := "Bovada",
         bet_type := "straight", status := "won", odds := 100, clv := 0,
         stake := none, bet_profit := none, time_placed := none, time_settled := none,
         bet_info := "X", tags := "", sport := "", league := "", verified := false }],
    nextId := 2 }

/-! ## Claim C10: the two static authority sets are disjoint -/

/-- C10: no sportsbook name belongs to both `PIKKIT_SPORTSBOOKS` and
`ODDSJAM_SPORTSBOOKS` — in `data_converters.py`, in `sportsbook_config.py`,
and across the two modules — and `validate_configuration` reports neither
overlaps nor alias conflicts, so every sportsbook name is assigned to at
most one authoritative source. -/
theorem authority_sets_disjoint :
    DataConverters.PIKKIT_SPORTSBOOKS.Disjoint DataConverters.ODDSJAM_SPORTSBOOKS
    ∧ SportsbookConfig.PIKKIT_SPORTSBOOKS.Disjoint SportsbookConfig.ODDSJAM_SPORTSBOOKS
    ∧ DataConverters.PIKKIT_SPORTSBOOKS.Disjoint SportsbookConfig.ODDSJAM_SPORTSBOOKS
    ∧ SportsbookConfig.PIKKIT_SPORTSBOOKS.Disjoint DataConverters.ODDSJAM_SPORTSBOOKS
    ∧ SportsbookConfig.validate_configuration_overlaps = []
    ∧ SportsbookConfig.validate_configuration_alias_conflicts = [] := by
  refine ⟨?_, ?_, ?_, ?_, by decide, by decide⟩ <;>
    · intro a ha hb
      fin_cases ha <;> revert hb <;> decide

/-! ## Claim C7: status normalization totality -/

/-- C7: for every input status (including `None` and arbitrary strings) and
every source, the normalizer returns one of exactly
{pending, won, lost, refunded}; any string outside the source's vocabulary
maps to `"pending"`, and Pikkit's `SETTLED_PUSH`/`SETTLED_VOID` (in any
casing) both map to `"refunded"`. -/
theorem normalize_status_totality (status : Option String) (source : String) (st : String) :
    DataConverters.normalize_status status source ∈ (["pending", "won", "lost", "refunded"] : List String)
    ∧ (pyUpper st = "SETTLED_PUSH" → DataConverters.normalize_status (some st) "pikkit" = "refunded")
    ∧ (pyUpper st = "SETTLED_VOID" → DataConverters.normalize_status (some st) "pikkit" = "refunded")
    ∧ (pyUpper st ∉ (["PLACED", "SETTLED_WIN", "SETTLED_LOSS", "SETTLED_PUSH", "SETTLED_VOID"] : List String) →
        DataConverters.normalize_status (some st) "pikkit" = "pending")
    ∧ (pyUpper st ∉ (["PENDING", "WON", "LOST", "REFUNDED"] : List String) →
        DataConverters.normalize_status (some st) "oddsjam" = "pending") := by
  unfold DataConverters.normalize_status
  refine ⟨?_, ?_, ?_, ?_, ?_⟩
  · cases status with
    | none => simp
    | some s =>
      simp only [List.mem_cons, List.mem_singleton]
      repeat' split
      all_goals simp
  · intro h
    simp only [h]
    split
    · rename_i hst
      rw [hst] at h
      exact absurd h (by decide)
    · simp_all
  · intro h
    simp only [h]
    split
    · rename_i hst
      rw [hst] at h
      exact absurd h (by decide)
    · simp_all
  · intro h
    simp only [List.mem_cons, List.mem_singleton] at h
    push_neg at h
    split <;> simp_all
  · intro h
    simp only [List.mem_cons, List.mem_singleton] at h
    push_neg at h
    split <;> simp_all

/-- Witness for C7 at concrete inputs: `"settled_push"` (lower case) is
normalized to `"refunded"` and the drifted status `"CASHED_OUT"` falls back
to `"pending"`. -/
theorem normalize_status_totality_witness :
    DataConverters.normalize_status (some "settled_push") "pikkit" = "refunded"
    ∧ DataConverters.normalize_status (some "CASHED_OUT") "pikkit" = "pending" :=
  ⟨(normalize_status_totality none "pikkit" "settled_push").2.1 (by decide),
   (normalize_status_totality none "pikkit" "CASHED_OUT").2.2.2.1 (by decide)⟩

/-! ## Claim C6: totality of the decimal-to-American conversion -/

/-- C6 counterexample: exactly at decimal odds 1 the code computes
`-100 / (decimal_odds - 1) = -100 / 0` and raises `ZeroDivisionError`
(embedded as `none`), so the function is not total on `0 < d ≤ 1`. -/
theorem decimal_to_american_raises_at_one :
    DataConverters.decimal_to_american_odds (some 1) = none := by
  simp [DataConverters.decimal_to_american_odds]

/-- C6 (amended): `decimal_to_american_odds` returns an integer without
raising on `None` and on every rational input except exactly 1 (where it
raises `ZeroDivisionError`); for `d ≤ 0` or `None` it returns the sentinel
0. -/
theorem decimal_to_american_total_except_one (d : ℚ) :
    (d ≠ 1 → ∃ n : ℤ, DataConverters.decimal_to_american_odds (some d) = some n)
    ∧ (d ≤ 0 → DataConverters.decimal_to_american_odds (some d) = some 0)
    ∧ DataConverters.decimal_to_american_odds none = some 0 := by
  refine ⟨fun hd => ?_, fun hd => ?_, rfl⟩
  · by_cases h0 : d ≤ 0
    · exact ⟨0, by simp [DataConverters.decimal_to_american_odds, h0]⟩
    · by_cases h2 : 2 ≤ d
      · refine ⟨truncToInt ((d - 1) * 100), ?_⟩
        simp [DataConverters.decimal_to_american_odds, h0, h2]
      · refine ⟨truncToInt (-100 / (d - 1)), ?_⟩
        simp [DataConverters.decimal_to_american_odds, h0, h2, hd]
  · simp [DataConverters.decimal_to_american_odds, hd]

/-- Witness for C6 at `d = 3/2` (inside the interval the spec leaves to the
negative-odds branch) and at `d = -2`. -/
theorem decimal_to_american_total_except_one_witness :
    (∃ n : ℤ, DataConverters.decimal_to_american_odds (some (3/2)) = some n)
    ∧ DataConverters.decimal_to_american_odds (some (-2)) = some 0 :=
  ⟨(decimal_to_american_total_except_one (3/2)).1 (by norm_num),
   (decimal_to_american_total_except_one (-2)).2.1 (by norm_num)⟩

/-! ## Claim C9: EV sign consistency -/

/-- C9: a record with `odds = +150` and `closing_line = +120` gets
`beat_clv = true` and a strictly positive `ev_percent`
(`impliedProbability(120) / impliedProbability(150) - 1 = 3/22`). -/
theorem ev_sign_consistency :
    Routes.evMetrics 150 (some 120) = some (3/22, true) ∧ (0 : ℚ) < 3/22 := by
  constructor
  · simp only [Routes.evMetrics, Routes.american_odds_to_implied_prob,
      Routes.calculate_ev_percent]
    norm_num
  · norm_num

/-! ## Claim C5: the Pikkit concrete mapping scenario -/



/-- C5 counterexample: the claimed canonical `odds = -110` is wrong — the
code truncates `-100 / 0.91 = -109.89...` toward zero (`int(...)`), giving
`-109`, not the rounded `-110`. -/
theorem pikkit_concrete_scenario_cex :
    (convert_pikkit_to_unified c5row).map (fun u => u.odds) ≠ some (-110) := by
  have : (convert_pikkit_to_unified c5row).map (fun u => u.odds) = some (-109) := by
    simp only [c5row, convert_pikkit_to_unified, decimal_to_american_odds, truncToInt]
    norm_num
  rw [this]
  decide

/-- C5 (amended): the concrete source-B row maps to canonical
`odds = -109`, `clv = -125`, `status = "won"`, `stake = 10.00`,
`bet_profit = 9.10`, and a batch import of that row inserts it with
`verified = true`. -/
theorem pikkit_concrete_scenario_amended :
    convert_pikkit_to_unified c5row = some
      { source := "pikkit", original_bet_id := "abc123", sportsbook := "FanDuel",
        bet_type := "straight", status := "won", odds := -109, clv := -125,
        stake := some 10, bet_profit := some (91/10), time_placed := none,
        time_settled := none, bet_info := "", tags := "", sport := "", league := "" }
    ∧ (import_pikkit_to_unified [c5row] emptyStore).1.recs.map
        (fun r => (r.original_bet_id, r.odds, r.clv, r.status, r.verified))
      = [("abc123", -109, -125, "won", true)] := by
  constructor
  · simp only [c5row, convert_pikkit_to_unified, decimal_to_american_odds, truncToInt,
      round_currency, normalize_bet_type, normalize_status, pyLower, pyUpper]
    norm_num
    decide
  · simp only [import_pikkit_to_unified, importPikkitFrom, processPikkitRow, c5row,
      convert_pikkit_to_unified, decimal_to_american_odds, truncToInt, round_currency,
      normalize_bet_type, normalize_status, pyLower, pyUpper, findPikkit, emptyStore,
      insertRecord, mkRecord, List.find?]
    norm_num
    decide

/-! ## Claim C8: the mark-verified operation -/

/-- C8: `verify_bet` on a record whose source is not `oddsjam` (in
particular the auto-verified `pikkit` source) is rejected with an explicit
error and the store is unchanged; on an unverified `oddsjam` record it sets
`verified = true` on exactly that record; on an already-verified `oddsjam`
record it is a no-op that reports the bet as verified. -/
theorem verify_bet_spec (s : Store) (bid : ℕ) (r : UnifiedRecord)
    (hfind : s.recs.find? (fun x => x.id == bid) = some r) :
    (r.source ≠ "oddsjam" → verify_bet s bid = (VerifyResult.rejectedNotOddsjam, s))
    ∧ (r.source = "oddsjam" → r.verified = true → verify_bet s bid = (VerifyResult.alreadyVerified, s))
    ∧ (r.source = "oddsjam" → r.verified = false →
        (verify_bet s bid).1 = VerifyResult.verifiedNow
        ∧ (verify_bet s bid).2.recs
            = s.recs.map (fun x => if x.id = bid then { x with verified := true } else x)) := by
  unfold Routes.verify_bet
  rw [hfind]
  refine ⟨fun h => ?_, fun h1 h2 => ?_, fun h1 h2 => ?_⟩
  · simp [h]
  · simp [h1, h2]
  · simp [h1, h2, updateById]



/-- Witness for C8: on the concrete store, verifying the Pikkit record is
rejected leaving the store unchanged, and verifying the OddsJam record
succeeds. -/
theorem verify_bet_spec_witness :
    verify_bet c8store 0 = (VerifyResult.rejectedNotOddsjam, c8store)
    ∧ (verify_bet c8store 1).1 = VerifyResult.verifiedNow :=
  ⟨(verify_bet_spec c8store 0 (c8store.recs.get ⟨0, by decide⟩) (by decide)).1 (by decide),
   ((verify_bet_spec c8store 1 (c8store.recs.get ⟨1, by decide⟩) (by decide)).2.2 (by decide)
     (by decide)).1⟩

/-! ## Shared lemmas about the reconciliation engine -/

theorem find?_isSome_append_left {α : Type} (p : α → Bool) (l1 l2 : List α)
    (h : (l1.find? p).isSome) : ((l1 ++ l2).find? p).isSome := by
  rw [List.find?_append]
  cases hf : l1.find? p with
  | none => rw [hf] at h; exact absurd h (by simp)
  | some a => simp [Option.or, hf]

theorem find?_isSome_append_right {α : Type} (p : α → Bool) (l1 l2 : List α)
    (h : (l2.find? p).isSome) : ((l1 ++ l2).find? p).isSome := by
  rw [List.find?_append]
  cases hf : l1.find? p with
  | none =>
    cases hg : l2.find? p with
    | none => rw [hg] at h; exact absurd h (by simp)
    | some a => rfl
  | some a => rfl

theorem find?_isSome_map {α : Type} (p : α → Bool) (g : α → α)
    (hg : ∀ a, p (g a) = p a) :
    ∀ l : List α, ((l.map g).find? p).isSome = (l.find? p).isSome := by
  intro l
  induction l with
  | nil => rfl
  | cons a l ih =>
    rw [List.map_cons, List.find?_cons, List.find?_cons, hg a]
    cases hpa : p a with
    | true => rfl
    | false => exact ih

theorem pikkitKeyPred_guardedUpdate (bid : String) (u : UnifiedData) (i : ℕ)
    (x : UnifiedRecord) :
    pikkitKeyPred bid (if x.id = i then pikkitUpdate u x else x) = pikkitKeyPred bid x := by
  by_cases h : x.id = i
  · rw [if_pos h]; rfl
  · rw [if_neg h]

theorem oddsjamKeyPred_guardedUpdate (binfo : String) (tp : Option ℤ) (u : UnifiedData)
    (i : ℕ) (x : UnifiedRecord) :
    oddsjamKeyPred binfo tp (if x.id = i then oddsjamUpdate u x else x)
      = oddsjamKeyPred binfo tp x := by
  by_cases h : x.id = i
  · rw [if_pos h]; rfl
  · rw [if_neg h]

theorem convert_pikkit_fields (row : PikkitRow) (u : UnifiedData)
    (h : convert_pikkit_to_unified row = some u) :
    u.source = "pikkit" ∧ u.original_bet_id = row.bet_id := by
  unfold DataConverters.convert_pikkit_to_unified at h
  split at h
  · cases h
    exact ⟨rfl, rfl⟩
  · cases h

theorem timeMatchB_self (t : Option ℤ) : timeMatchB t t = true := by
  unfold ImportUnified.timeMatchB
  cases t with
  | none => rfl
  | some a => simp

theorem findPikkit_isSome_process (s : Store) (row : PikkitRow) (bid : String)
    (h : (findPikkit s bid).isSome) :
    (findPikkit (processPikkitRow s row).1 bid).isSome := by
  unfold processPikkitRow
  split
  · exact h
  · cases hc : convert_pikkit_to_unified row with
    | none => exact h
    | some u =>
      cases hf : findPikkit s row.bet_id with
      | none =>
        unfold findPikkit insertRecord
        exact find?_isSome_append_left _ _ _ h
      | some r =>
        unfold findPikkit updateById
        rw [find?_isSome_map _ _ (fun x => pikkitKeyPred_guardedUpdate bid u r.id x)]
        exact h

theorem findPikkit_isSome_process_self (s : Store) (row : PikkitRow) (u : UnifiedData)
    (hid : ¬row.bet_id = "") (hc : convert_pikkit_to_unified row = some u) :
    (findPikkit (processPikkitRow s row).1 row.bet_id).isSome := by
  obtain ⟨hsrc, hbid⟩ := convert_pikkit_fields row u hc
  unfold processPikkitRow
  rw [if_neg hid, hc]
  cases hf : findPikkit s row.bet_id with
  | none =>
    unfold findPikkit insertRecord
    apply find?_isSome_append_right
    simp [List.find?, pikkitKeyPred, mkRecord, hsrc, hbid]
  | some r =>
    unfold findPikkit updateById
    rw [find?_isSome_map _ _ (fun x => pikkitKeyPred_guardedUpdate row.bet_id u r.id x)]
    unfold findPikkit at hf
    rw [hf]
    rfl

theorem importPikkitFrom_cons (s : Store) (row : PikkitRow) (rest : List PikkitRow) :
    importPikkitFrom s (row :: rest)
      = ((importPikkitFrom (processPikkitRow s row).1 rest).1,
         (importPikkitFrom (processPikkitRow s row).1 rest).2.add (processPikkitRow s row).2) :=
  rfl

theorem findPikkit_isSome_loop (rows : List PikkitRow) :
    ∀ (s : Store) (bid : String), (findPikkit s bid).isSome →
      (findPikkit (importPikkitFrom s rows).1 bid).isSome := by
  induction rows with
  | nil => intro s bid h; exact h
  | cons row rest ih =>
    intro s bid h
    rw [importPikkitFrom_cons]
    exact ih _ bid (findPikkit_isSome_process s row bid h)

theorem findPikkit_isSome_after_run (rows : List PikkitRow) :
    ∀ (s : Store) (row : PikkitRow), row ∈ rows → ¬row.bet_id = "" →
      ∀ u, convert_pikkit_to_unified row = some u →
      (findPikkit (importPikkitFrom s rows).1 row.bet_id).isSome := by
  induction rows with
  | nil => intro s row h; cases h
  | cons r0 rest ih =>
    intro s row hmem hid u hc
    rw [importPikkitFrom_cons]
    rcases List.mem_cons.mp hmem with heq | hmem'
    · subst heq
      exact findPikkit_isSome_loop rest _ _ (findPikkit_isSome_process_self s row u hid hc)
    · exact ih _ row hmem' hid u hc

theorem processPikkitRow_matched (s : Store) (row : PikkitRow) (u : UnifiedData)
    (r : UnifiedRecord) (hid : ¬row.bet_id = "")
    (hc : convert_pikkit_to_unified row = some u)
    (hf : findPikkit s row.bet_id = some r) :
    processPikkitRow s row = (updateById s r.id (pikkitUpdate u), Outcome.updated) := by
  unfold processPikkitRow
  rw [if_neg hid, hc, hf]

theorem importPikkitFrom_cons_eq (s s' : Store) (row : PikkitRow) (o : Outcome)
    (rest : List PikkitRow) (hstep : processPikkitRow s row = (s', o)) :
    importPikkitFrom s (row :: rest)
      = ((importPikkitFrom s' rest).1, (importPikkitFrom s' rest).2.add o) := by
  rw [importPikkitFrom_cons, hstep]

theorem importPikkitFrom_all_matched (rows : List PikkitRow) :
    ∀ s : Store,
      (∀ row ∈ rows, ¬row.bet_id = "" → ∀ u, convert_pikkit_to_unified row = some u →
        (findPikkit s row.bet_id).isSome) →
      (importPikkitFrom s rows).2.new_count = 0
      ∧ (importPikkitFrom s rows).2.updated_count + (importPikkitFrom s rows).2.error_count
          = rows.length := by
  induction rows with
  | nil => intro s _h; exact ⟨rfl, rfl⟩
  | cons row rest ih =>
    intro s h
    by_cases hid : row.bet_id = ""
    · have hstep : processPikkitRow s row = (s, Outcome.errored) := by
        unfold processPikkitRow
        exact if_pos hid
      rw [importPikkitFrom_cons_eq s s row Outcome.errored rest hstep]
      have IH := ih s (fun r hr hrid u hcu => h r (List.mem_cons_of_mem row hr) hrid u hcu)
      refine ⟨IH.1, ?_⟩
      show (importPikkitFrom s rest).2.updated_count
          + ((importPikkitFrom s rest).2.error_count + 1) = rest.length + 1
      omega
    · cases hc : convert_pikkit_to_unified row with
      | none =>
        have hstep : processPikkitRow s row = (s, Outcome.errored) := by
          unfold processPikkitRow
          rw [if_neg hid, hc]
        rw [importPikkitFrom_cons_eq s s row Outcome.errored rest hstep]
        have IH := ih s (fun r hr hrid u hcu => h r (List.mem_cons_of_mem row hr) hrid u hcu)
        refine ⟨IH.1, ?_⟩
        show (importPikkitFrom s rest).2.updated_count
            + ((importPikkitFrom s rest).2.error_count + 1) = rest.length + 1
        omega
      | some u =>
        obtain ⟨r, hr⟩ := Option.isSome_iff_exists.mp
          (h row (List.mem_cons_self row rest) hid u hc)
        have hstep := processPikkitRow_matched s row u r hid hc hr
        rw [importPikkitFrom_cons_eq s (updateById s r.id (pikkitUpdate u)) row
          Outcome.updated rest hstep]
        have IH := ih (updateById s r.id (pikkitUpdate u)) (fun r' hr' hrid u' hcu => by
          have hp := findPikkit_isSome_process s row r'.bet_id
            (h r' (List.mem_cons_of_mem row hr') hrid u' hcu)
          rw [hstep] at hp
          exact hp)
        refine ⟨IH.1, ?_⟩
        show ((importPikkitFrom (updateById s r.id (pikkitUpdate u)) rest).2.updated_count + 1)
            + (importPikkitFrom (updateById s r.id (pikkitUpdate u)) rest).2.error_count
          = rest.length + 1
        omega



theorem convert_oddsjam_bet_info (idx : ℕ) (row : OddsjamRow) :
    (convert_oddsjam_to_unified idx row).bet_info = oddsjamRowKey row := rfl

theorem convert_oddsjam_time_placed (idx : ℕ) (row : OddsjamRow) :
    (convert_oddsjam_to_unified idx row).time_placed = row.created_at := rfl

theorem convert_oddsjam_source (idx : ℕ) (row : OddsjamRow) :
    (convert_oddsjam_to_unified idx row).source = "oddsjam" := rfl

theorem processOddsjamRow_skipped (s : Store) (idx : ℕ) (row : OddsjamRow)
    (h : should_use_pikkit_data row.sportsbook = true) :
    processOddsjamRow s idx row = (s, Outcome.skipped) := by
  unfold processOddsjamRow
  rw [if_pos h]

theorem processOddsjamRow_matched (s : Store) (idx : ℕ) (row : OddsjamRow)
    (r : UnifiedRecord) (hskip : should_use_pikkit_data row.sportsbook = false)
    (hf : findOddsjam s (convert_oddsjam_to_unified idx row).bet_info
        (convert_oddsjam_to_unified idx row).time_placed = some r) :
    processOddsjamRow s idx row
      = (updateById s r.id (oddsjamUpdate (convert_oddsjam_to_unified idx row)),
         Outcome.updated) := by
  unfold processOddsjamRow
  rw [if_neg (by simp [hskip]), hf]

theorem findOddsjam_isSome_process (s : Store) (idx : ℕ) (row : OddsjamRow)
    (binfo : String) (tp : Option ℤ)
    (h : (findOddsjam s binfo tp).isSome) :
    (findOddsjam (processOddsjamRow s idx row).1 binfo tp).isSome := by
  unfold processOddsjamRow
  split
  · exact h
  · cases hf : findOddsjam s (convert_oddsjam_to_unified idx row).bet_info
        (convert_oddsjam_to_unified idx row).time_placed with
    | none =>
      unfold findOddsjam insertRecord
      exact find?_isSome_append_left _ _ _ h
    | some r =>
      unfold findOddsjam updateById
      rw [find?_isSome_map _ _
        (fun x => oddsjamKeyPred_guardedUpdate binfo tp (convert_oddsjam_to_unified idx row) r.id x)]
      exact h

theorem findOddsjam_isSome_process_self (s : Store) (idx : ℕ) (row : OddsjamRow)
    (hskip : should_use_pikkit_data row.sportsbook = false) :
    (findOddsjam (processOddsjamRow s idx row).1 (oddsjamRowKey row) row.created_at).isSome := by
  unfold processOddsjamRow
  rw [if_neg (by simp [hskip])]
  cases hf : findOddsjam s (convert_oddsjam_to_unified idx row).bet_info
      (convert_oddsjam_to_unified idx row).time_placed with
  | none =>
    unfold findOddsjam insertRecord
    apply find?_isSome_append_right
    simp [List.find?, oddsjamKeyPred, mkRecord, timeMatchB_self,
      convert_oddsjam_bet_info, convert_oddsjam_time_placed, convert_oddsjam_source]
  | some r =>
    unfold findOddsjam updateById
    rw [find?_isSome_map _ _
      (fun x => oddsjamKeyPred_guardedUpdate (oddsjamRowKey row) row.created_at
        (convert_oddsjam_to_unified idx row) r.id x)]
    rw [convert_oddsjam_bet_info, convert_oddsjam_time_placed] at hf
    unfold findOddsjam at hf
    rw [hf]
    rfl

theorem importOddsjamFrom_cons (s : Store) (idx : ℕ) (row : OddsjamRow)
    (rest : List OddsjamRow) :
    importOddsjamFrom s idx (row :: rest)
      = ((importOddsjamFrom (processOddsjamRow s idx row).1 (idx + 1) rest).1,
         (importOddsjamFrom (processOddsjamRow s idx row).1 (idx + 1) rest).2.add
           (processOddsjamRow s idx row).2) :=
  rfl

theorem importOddsjamFrom_cons_eq (s s' : Store) (idx : ℕ) (row : OddsjamRow)
    (o : Outcome) (rest : List OddsjamRow)
    (hstep : processOddsjamRow s idx row = (s', o)) :
    importOddsjamFrom s idx (row :: rest)
      = ((importOddsjamFrom s' (idx + 1) rest).1,
         (importOddsjamFrom s' (idx + 1) rest).2.add o) := by
  rw [importOddsjamFrom_cons, hstep]

theorem findOddsjam_isSome_loop (rows : List OddsjamRow) :
    ∀ (s : Store) (idx : ℕ) (binfo : String) (tp : Option ℤ),
      (findOddsjam s binfo tp).isSome →
      (findOddsjam (importOddsjamFrom s idx rows).1 binfo tp).isSome := by
  induction rows with
  | nil => intro s idx binfo tp h; exact h
  | cons row rest ih =>
    intro s idx binfo tp h
    rw [importOddsjamFrom_cons]
    exact ih _ _ binfo tp (findOddsjam_isSome_process s idx row binfo tp h)

theorem findOddsjam_isSome_after_run (rows : List OddsjamRow) :
    ∀ (s : Store) (idx : ℕ) (row : OddsjamRow), row ∈ rows →
      should_use_pikkit_data row.sportsbook = false →
      (findOddsjam (importOddsjamFrom s idx rows).1 (oddsjamRowKey row) row.created_at).isSome := by
  induction rows with
  | nil => intro s idx row h; cases h
  | cons r0 rest ih =>
    intro s idx row hmem hskip
    rw [importOddsjamFrom_cons]
    rcases List.mem_cons.mp hmem with heq | hmem'
    · subst heq
      exact findOddsjam_isSome_loop rest _ _ _ _
        (findOddsjam_isSome_process_self s idx row hskip)
    · exact ih _ _ row hmem' hskip

theorem importOddsjamFrom_all_matched (rows : List OddsjamRow) :
    ∀ (s : Store) (idx : ℕ),
      (∀ row ∈ rows, should_use_pikkit_data row.sportsbook = false →
        (findOddsjam s (oddsjamRowKey row) row.created_at).isSome) →
      (importOddsjamFrom s idx rows).2.new_count = 0
      ∧ (importOddsjamFrom s idx rows).2.updated_count
          + (importOddsjamFrom s idx rows).2.skipped_count = rows.length := by
  induction rows with
  | nil => intro s idx _h; exact ⟨rfl, rfl⟩
  | cons row rest ih =>
    intro s idx h
    cases hskip : should_use_pikkit_data row.sportsbook with
    | true =>
      have hstep := processOddsjamRow_skipped s idx row hskip
      rw [importOddsjamFrom_cons_eq s s idx row Outcome.skipped rest hstep]
      have IH := ih s (idx + 1) (fun r hr hrs => h r (List.mem_cons_of_mem row hr) hrs)
      refine ⟨IH.1, ?_⟩
      show (importOddsjamFrom s (idx + 1) rest).2.updated_count
          + ((importOddsjamFrom s (idx + 1) rest).2.skipped_count + 1) = rest.length + 1
      omega
    | false =>
      obtain ⟨r, hr⟩ := Option.isSome_iff_exists.mp
        (h row (List.mem_cons_self row rest) hskip)
      rw [← convert_oddsjam_bet_info idx row, ← convert_oddsjam_time_placed idx row] at hr
      have hstep := processOddsjamRow_matched s idx row r hskip hr
      rw [importOddsjamFrom_cons_eq s
        (updateById s r.id (oddsjamUpdate (convert_oddsjam_to_unified idx row))) idx row
        Outcome.updated rest hstep]
      have IH := ih (updateById s r.id (oddsjamUpdate (convert_oddsjam_to_unified idx row)))
        (idx + 1) (fun r' hr' hrs => by
          have hp := findOddsjam_isSome_process s idx row (oddsjamRowKey r') r'.created_at
            (h r' (List.mem_cons_of_mem row hr') hrs)
          rw [hstep] at hp
          exact hp)
      refine ⟨IH.1, ?_⟩
      show ((importOddsjamFrom (updateById s r.id
              (oddsjamUpdate (convert_oddsjam_to_unified idx row))) (idx + 1) rest).2.updated_count + 1)
          + (importOddsjamFrom (updateById s r.id
              (oddsjamUpdate (convert_oddsjam_to_unified idx row))) (idx + 1) rest).2.skipped_count
        = rest.length + 1
      omega

/-! ## Claim C1: authority filtering -/

theorem not_mem_pikkit_of_should_use_false (sb : String)
    (h : should_use_pikkit_data sb = false) :
    sb ∉ DataConverters.PIKKIT_SPORTSBOOKS := by
  simp [DataConverters.should_use_pikkit_data, List.contains, List.elem_iff] at h
  exact h

theorem authority_step (s : Store) (idx : ℕ) (row : OddsjamRow)
    (h : OddsjamAuthorityOK s) : OddsjamAuthorityOK (processOddsjamRow s idx row).1 := by
  cases hskip : should_use_pikkit_data row.sportsbook with
  | true =>
    rw [processOddsjamRow_skipped s idx row hskip]
    exact h
  | false =>
    cases hf : findOddsjam s (convert_oddsjam_to_unified idx row).bet_info
        (convert_oddsjam_to_unified idx row).time_placed with
    | none =>
      have hstep : processOddsjamRow s idx row
          = (insertRecord s (convert_oddsjam_to_unified idx row) false, Outcome.inserted) := by
        unfold processOddsjamRow
        rw [if_neg (by simp [hskip]), hf]
      rw [hstep]
      intro r hr hsrc
      simp only [insertRecord] at hr
      rcases List.mem_append.mp hr with hin | hnew
      · exact h r hin hsrc
      · rw [List.mem_singleton] at hnew
        subst hnew
        exact not_mem_pikkit_of_should_use_false row.sportsbook hskip
    | some r0 =>
      have hstep := processOddsjamRow_matched s idx row r0 hskip hf
      rw [hstep]
      intro r hr hsrc
      simp only [updateById] at hr
      rcases List.mem_map.mp hr with ⟨y, hy, hgy⟩
      by_cases hid : y.id = r0.id
      · rw [if_pos hid] at hgy
        subst hgy
        exact not_mem_pikkit_of_should_use_false row.sportsbook hskip
      · rw [if_neg hid] at hgy
        subst hgy
        exact h y hy hsrc

theorem authority_loop (rows : List OddsjamRow) :
    ∀ (s : Store) (idx : ℕ), OddsjamAuthorityOK s →
      OddsjamAuthorityOK (importOddsjamFrom s idx rows).1 := by
  induction rows with
  | nil => intro s idx h; exact h
  | cons row rest ih =>
    intro s idx h
    rw [importOddsjamFrom_cons]
    exact ih _ _ (authority_step s idx row h)

/-- C1 (amended): authority filtering exists only in the OddsJam import: a
raw OddsJam row whose sportsbook is Pikkit-authoritative is skipped
entirely, and an OddsJam batch import preserves the invariant that no
OddsJam-owned canonical record carries a Pikkit-authoritative sportsbook.
(The Pikkit import performs no such filtering — see the counterexample.) -/
theorem authority_filter_oddsjam_only (s : Store) (idx : ℕ) (row : OddsjamRow)
    (rows : List OddsjamRow) :
    (should_use_pikkit_data row.sportsbook = true →
      processOddsjamRow s idx row = (s, Outcome.skipped))
    ∧ (OddsjamAuthorityOK s → OddsjamAuthorityOK (import_oddsjam_to_unified rows s).1) :=
  ⟨fun h => processOddsjamRow_skipped s idx row h,
   fun h => authority_loop rows s 0 h⟩

/-- Witness for C1 at concrete inputs: the FanDuel OddsJam row is skipped,
and the empty store satisfies the authority invariant after an import. -/
theorem authority_filter_oddsjam_only_witness :
    processOddsjamRow emptyStore 0 c1skiprow = (emptyStore, Outcome.skipped)
    ∧ OddsjamAuthorityOK (import_oddsjam_to_unified [] emptyStore).1 :=
  ⟨(authority_filter_oddsjam_only emptyStore 0 c1skiprow []).1 (by decide),
   (authority_filter_oddsjam_only emptyStore 0 c1skiprow []).2
     (by intro r hr; cases hr)⟩

/-- C1 counterexample: the Pikkit import has no authority filter.  Importing
a Pikkit row for Bovada — a sportsbook the authority table assigns to
OddsJam — inserts a canonical record for it (`inserted = 1`, nothing
skipped), contradicting the claim for the Pikkit side. -/
theorem pikkit_import_ignores_authority_cex :
    (import_pikkit_to_unified [c1row] emptyStore).1.recs.map (fun r => (r.source, r.sportsbook))
      = [("pikkit", "Bovada")]
    ∧ (import_pikkit_to_unified [c1row] emptyStore).2.new_count = 1
    ∧ (import_pikkit_to_unified [c1row] emptyStore).2.skipped_count = 0
    ∧ "Bovada" ∈ DataConverters.ODDSJAM_SPORTSBOOKS
    ∧ SportsbookConfig.determine_data_source "Bovada" = "oddsjam" := by
  refine ⟨?_, ?_, ?_, by decide, by decide⟩ <;>
  · simp only [import_pikkit_to_unified, importPikkitFrom, processPikkitRow, c1row,
      convert_pikkit_to_unified, decimal_to_american_odds, truncToInt, round_currency,
      normalize_bet_type, normalize_status, pyLower, pyUpper, findPikkit, pikkitKeyPred,
      emptyStore, insertRecord, mkRecord, List.find?, Report.add]
    norm_num
    decide

/-! ## Claim C2: re-importing the same export -/

/-- C2 (amended): re-importing the same unchanged export creates no new
canonical records — every row of the second run that is processed matches
the record created or updated by the first run, so the second run reports
`inserted = 0`; its `updated` count is the full row count minus the rows
skipped (OddsJam authority filter) or errored (Pikkit empty/raising rows),
exactly as in the first run.  (The claim's stated report
`inserted = N, updated = 0` has the two counters swapped — see the
counterexample.) -/
theorem second_import_inserts_nothing (rowsP : List PikkitRow) (rowsO : List OddsjamRow)
    (s t : Store) :
    (import_pikkit_to_unified rowsP (import_pikkit_to_unified rowsP s).1).2.new_count = 0
    ∧ (import_pikkit_to_unified rowsP (import_pikkit_to_unified rowsP s).1).2.updated_count
        + (import_pikkit_to_unified rowsP (import_pikkit_to_unified rowsP s).1).2.error_count
      = rowsP.length
    ∧ (import_oddsjam_to_unified rowsO (import_oddsjam_to_unified rowsO t).1).2.new_count = 0
    ∧ (import_oddsjam_to_unified rowsO (import_oddsjam_to_unified rowsO t).1).2.updated_count
        + (import_oddsjam_to_unified rowsO (import_oddsjam_to_unified rowsO t).1).2.skipped_count
      = rowsO.length := by
  have hp := importPikkitFrom_all_matched rowsP (importPikkitFrom s rowsP).1
    (fun row hmem hid u hc => findPikkit_isSome_after_run rowsP s row hmem hid u hc)
  have ho := importOddsjamFrom_all_matched rowsO (importOddsjamFrom t 0 rowsO).1 0
    (fun row hmem hskip => findOddsjam_isSome_after_run rowsO t 0 row hmem hskip)
  exact ⟨hp.1, hp.2, ho.1, ho.2⟩

/-- C2 counterexample: importing the same one-row Pikkit export twice, the
second run reports `inserted = 0, updated = 1` — not the claimed
`inserted = 1, updated = 0`.  (No duplicate is created; only the stated
report counters are wrong.) -/
theorem second_import_report_cex :
    (import_pikkit_to_unified [c2row]
        ((import_pikkit_to_unified [c2row] emptyStore).1)).2.new_count = 0
    ∧ (import_pikkit_to_unified [c2row]
        ((import_pikkit_to_unified [c2row] emptyStore).1)).2.updated_count = 1
    ∧ ¬((import_pikkit_to_unified [c2row]
        ((import_pikkit_to_unified [c2row] emptyStore).1)).2.new_count = 1
      ∧ (import_pikkit_to_unified [c2row]
        ((import_pikkit_to_unified [c2row] emptyStore).1)).2.updated_count = 0)
    ∧ (import_pikkit_to_unified [c2row]
        ((import_pikkit_to_unified [c2row] emptyStore).1)).1.recs.length = 1 := by
  have h : (import_pikkit_to_unified [c2row]
        ((import_pikkit_to_unified [c2row] emptyStore).1)).2.new_count = 0
      ∧ (import_pikkit_to_unified [c2row]
        ((import_pikkit_to_unified [c2row] emptyStore).1)).2.updated_count = 1
      ∧ (import_pikkit_to_unified [c2row]
        ((import_pikkit_to_unified [c2row] emptyStore).1)).1.recs.length = 1 := by
    simp only [import_pikkit_to_unified, importPikkitFrom, processPikkitRow, c2row,
      convert_pikkit_to_unified, decimal_to_american_odds, truncToInt, round_currency,
      normalize_bet_type, normalize_status, pyLower, pyUpper, findPikkit, pikkitKeyPred,
      emptyStore, insertRecord, mkRecord, updateById, pikkitUpdate, List.find?, Report.add]
    norm_num
    decide
  refine ⟨h.1, h.2.1, ?_, h.2.2⟩
  intro hcon
  rw [h.1] at hcon
  exact absurd hcon.1 (by decide)

/-! ## Claim C3: status monotonicity on update -/

/-- C3 (amended): when a batch import updates a matched canonical record,
the stored status is overwritten unconditionally with the incoming row's
normalized status (last-writer-wins) for both sources — there is no
monotonicity guard, so a terminal status regresses to `pending` whenever
the incoming row maps to `pending`. -/
theorem update_status_last_writer_wins (s : Store) (row : PikkitRow) (u : UnifiedData)
    (r : UnifiedRecord) (t : Store) (idx : ℕ) (orow : OddsjamRow) (q : UnifiedRecord) :
    (¬row.bet_id = "" → convert_pikkit_to_unified row = some u →
      findPikkit s row.bet_id = some r →
      ∀ x ∈ (processPikkitRow s row).1.recs, x.id = r.id → x.status = u.status)
    ∧ (should_use_pikkit_data orow.sportsbook = false →
      findOddsjam t (convert_oddsjam_to_unified idx orow).bet_info
          (convert_oddsjam_to_unified idx orow).time_placed = some q →
      ∀ x ∈ (processOddsjamRow t idx orow).1.recs, x.id = q.id →
        x.status = (convert_oddsjam_to_unified idx orow).status) := by
  constructor
  · intro hid hc hf x hx hxid
    rw [processPikkitRow_matched s row u r hid hc hf] at hx
    simp only [updateById] at hx
    rcases List.mem_map.mp hx with ⟨y, hy, hgy⟩
    by_cases hyid : y.id = r.id
    · rw [if_pos hyid] at hgy
      subst hgy
      rfl
    · rw [if_neg hyid] at hgy
      subst hgy
      exact absurd hxid hyid
  · intro hskip hf x hx hxid
    rw [processOddsjamRow_matched t idx orow q hskip hf] at hx
    simp only [updateById] at hx
    rcases List.mem_map.mp hx with ⟨y, hy, hgy⟩
    by_cases hyid : y.id = q.id
    · rw [if_pos hyid] at hgy
      subst hgy
      rfl
    · rw [if_neg hyid] at hgy
      subst hgy
      exact absurd hxid hyid

/-- Witness for C3: on the concrete store whose only record is terminal
(`won`), importing the matching pending row leaves the record with status
`pending`, as the amended claim states. -/
theorem update_status_last_writer_wins_witness :
    (import_pikkit_to_unified [c3row] c3store).1.recs.map (fun x => x.status)
      = ["pending"] := by
  have hconv : convert_pikkit_to_unified c3row = some c3unified := by
    simp only [c3row, c3unified, convert_pikkit_to_unified, decimal_to_american_odds,
      truncToInt, round_currency, normalize_bet_type, normalize_status, pyLower, pyUpper]
    norm_num
    decide
  have hfind : findPikkit c3store c3row.bet_id = some c3rec := by
    simp [findPikkit, pikkitKeyPred, c3store, c3rec, c3row, List.find?]
  have happ := (update_status_last_writer_wins c3store c3row c3unified c3rec
    c3store 0 c1skiprow c3rec).1 (by decide) hconv hfind
  have hrecs : (processPikkitRow c3store c3row).1.recs
      = [pikkitUpdate c3unified c3rec] := by
    rw [processPikkitRow_matched c3store c3row c3unified c3rec (by decide) hconv hfind]
    simp [updateById, c3store]
  have hmain : (import_pikkit_to_unified [c3row] c3store).1.recs
      = (processPikkitRow c3store c3row).1.recs := rfl
  rw [hmain, hrecs, List.map_singleton]
  rw [happ (pikkitUpdate c3unified c3rec) (by rw [hrecs]; exact List.mem_singleton.mpr rfl) rfl]
  rfl

/-- C3 counterexample: the store starts with its only record in terminal
status `won`; importing the matching Pikkit row whose status is `PLACED`
regresses the stored status to `pending` (one update, no insert). -/
theorem terminal_status_regression_cex :
    c3store.recs.map (fun r => r.status) = ["won"]
    ∧ (import_pikkit_to_unified [c3row] c3store).1.recs.map (fun r => r.status) = ["pending"]
    ∧ (import_pikkit_to_unified [c3row] c3store).2.updated_count = 1
    ∧ (import_pikkit_to_unified [c3row] c3store).2.new_count = 0 := by
  refine ⟨by decide, ?_, ?_, ?_⟩ <;>
  · simp only [import_pikkit_to_unified, importPikkitFrom, processPikkitRow, c3row, c3store,
      c3rec, convert_pikkit_to_unified, decimal_to_american_odds, truncToInt, round_currency,
      normalize_bet_type, normalize_status, pyLower, pyUpper, findPikkit, pikkitKeyPred,
      insertRecord, mkRecord, updateById, pikkitUpdate, List.find?, Report.add]
    norm_num
    decide

/-! ## Claim C4: update frame — key fields and verified untouched -/

/-- C4: a matched batch-import row produces exactly one UPDATE of the
matched record: the report counts one update and no insert, the store
changes only at records bearing the matched id, the update statements leave
the matching-key fields (`source` plus `bet_info`/`time_placed` for
OddsJam, `source` plus `original_bet_id` for Pikkit) and the `verified`
flag untouched, and every mutable field — stake in particular — takes the
freshly imported value. -/
theorem update_frame_preserves_key_and_verified (s : Store) (row : PikkitRow)
    (u : UnifiedData) (r : UnifiedRecord) (t : Store) (idx : ℕ) (orow : OddsjamRow)
    (q : UnifiedRecord) :
    (¬row.bet_id = "" → convert_pikkit_to_unified row = some u →
      findPikkit s row.bet_id = some r →
      import_pikkit_to_unified [row] s
        = (updateById s r.id (pikkitUpdate u), ⟨0, 1, 0, 0⟩))
    ∧ (should_use_pikkit_data orow.sportsbook = false →
      findOddsjam t (convert_oddsjam_to_unified idx orow).bet_info
          (convert_oddsjam_to_unified idx orow).time_placed = some q →
      importOddsjamFrom t idx [orow]
        = (updateById t q.id (oddsjamUpdate (convert_oddsjam_to_unified idx orow)),
           ⟨0, 1, 0, 0⟩))
    ∧ (∀ x : UnifiedRecord,
        (pikkitUpdate u x).source = x.source
        ∧ (pikkitUpdate u x).original_bet_id = x.original_bet_id
        ∧ (pikkitUpdate u x).verified = x.verified
        ∧ (pikkitUpdate u x).id = x.id
        ∧ (pikkitUpdate u x).stake = u.stake
        ∧ (pikkitUpdate u x).status = u.status
        ∧ (pikkitUpdate u x).odds = u.odds
        ∧ (pikkitUpdate u x).clv = u.clv
        ∧ (pikkitUpdate u x).sportsbook = u.sportsbook
        ∧ (pikkitUpdate u x).bet_profit = u.bet_profit
        ∧ (pikkitUpdate u x).bet_info = u.bet_info
        ∧ (pikkitUpdate u x).time_placed = u.time_placed)
    ∧ (∀ x : UnifiedRecord,
        (oddsjamUpdate u x).source = x.source
        ∧ (oddsjamUpdate u x).bet_info = x.bet_info
        ∧ (oddsjamUpdate u x).time_placed = x.time_placed
        ∧ (oddsjamUpdate u x).verified = x.verified
        ∧ (oddsjamUpdate u x).id = x.id
        ∧ (oddsjamUpdate u x).stake = u.stake
        ∧ (oddsjamUpdate u x).status = u.status
        ∧ (oddsjamUpdate u x).odds = u.odds
        ∧ (oddsjamUpdate u x).clv = u.clv
        ∧ (oddsjamUpdate u x).sportsbook = u.sportsbook)
    ∧ (∀ (w : Store) (i : ℕ) (f : UnifiedRecord → UnifiedRecord),
        (updateById w i f).recs = w.recs.map (fun x => if x.id = i then f x else x)
        ∧ (updateById w i f).nextId = w.nextId) := by
  refine ⟨fun hid hc hf => ?_, fun hskip hf => ?_,
    fun x => ⟨rfl, rfl, rfl, rfl, rfl, rfl, rfl, rfl, rfl, rfl, rfl, rfl⟩,
    fun x => ⟨rfl, rfl, rfl, rfl, rfl, rfl, rfl, rfl, rfl, rfl⟩,
    fun w i f => ⟨rfl, rfl⟩⟩
  · have hstep := processPikkitRow_matched s row u r hid hc hf
    show importPikkitFrom s [row] = _
    rw [importPikkitFrom_cons_eq s (updateById s r.id (pikkitUpdate u)) row
      Outcome.updated [] hstep]
    rfl
  · have hstep := processOddsjamRow_matched t idx orow q hskip hf
    rw [importOddsjamFrom_cons_eq t
      (updateById t q.id (oddsjamUpdate (convert_oddsjam_to_unified idx orow))) idx orow
      Outcome.updated [] hstep]
    rfl

/-- Witness for C4: importing the corrected-stake row over the concrete
store updates exactly the matched record (stake 3 becomes 4, `verified`
stays true) and reports `inserted = 0, updated = 1`. -/
theorem update_frame_preserves_key_and_verified_witness :
    import_pikkit_to_unified [c4row] c4store
      = (updateById c4store 0 (pikkitUpdate c4unified), ⟨0, 1, 0, 0⟩)
    ∧ (pikkitUpdate c4unified c4rec).stake = some 4
    ∧ (pikkitUpdate c4unified c4rec).verified = true
    ∧ (pikkitUpdate c4unified c4rec).original_bet_id = "pk9" := by
  have hconv : convert_pikkit_to_unified c4row = some c4unified := by
    simp only [c4row, c4unified, convert_pikkit_to_unified, decimal_to_american_odds,
      truncToInt, round_currency, normalize_bet_type, normalize_status, pyLower, pyUpper]
    norm_num
    decide
  have hfind : findPikkit c4store c4row.bet_id = some c4rec := by
    simp [findPikkit, pikkitKeyPred, c4store, c4rec, c4row, List.find?]
  refine ⟨?_, rfl, rfl, rfl⟩
  exact (update_frame_preserves_key_and_verified c4store c4row c4unified c4rec
    c4store 0 c1skiprow c4rec).1 (by decide) hconv hfind

/-- Witness for C10: the theorem applied at a concrete member — BetMGM is
Pikkit-authoritative, hence not OddsJam-authoritative. -/
theorem authority_sets_disjoint_witness :
    "BetMGM" ∉ DataConverters.ODDSJAM_SPORTSBOOKS :=
  authority_sets_disjoint.1 (by decide)

/-- Witness for C2 at a concrete one-row export: the second run inserts
nothing. -/
theorem second_import_inserts_nothing_witness :
    (import_pikkit_to_unified [c2row] (import_pikkit_to_unified [c2row] emptyStore).1).2.new_count
      = 0 :=
  (second_import_inserts_nothing [c2row] [] emptyStore emptyStore).1
